import Mathlib

/-!
Verification development for the BLE Proximity application
(`src/proximity.c` of mtb-example-btsdk-ble-proximity-20736).

The source file declares a static GATT attribute table (`proximity_db_data`)
together with board configuration, and registers both with the vendor BLE
runtime.  The attribute table is embedded here macro call by macro call,
exactly in the order of the source.  The behavioral layers (attribute store,
access control, notification dispatcher, proximity state machine, battery
monitor) live in the closed vendor ROM, so they are modelled from the spec;
each such definition is marked `Modelled from the spec:` in its doc comment.
-/

namespace Prox

/-! ## GATT constants

The `LEGATTDB_*` and UUID constants come from the vendor SDK headers that the
source includes (`bleprofile.h` etc.); the headers are not part of the
repository, so the numeric values are the SDK's documented ones.  Only the
property/permission bit positions and the single-byte width of the battery
constants matter for the claims. -/

def LEGATTDB_CHAR_PROP_BROADCAST : Nat := 0x01
def LEGATTDB_CHAR_PROP_READ : Nat := 0x02
def LEGATTDB_CHAR_PROP_WRITE_NO_RESPONSE : Nat := 0x04
def LEGATTDB_CHAR_PROP_WRITE : Nat := 0x08
def LEGATTDB_CHAR_PROP_NOTIFY : Nat := 0x10
def LEGATTDB_CHAR_PROP_INDICATE : Nat := 0x20

def LEGATTDB_PERM_NONE : Nat := 0x00
def LEGATTDB_PERM_READABLE : Nat := 0x01
def LEGATTDB_PERM_WRITE_CMD : Nat := 0x02
def LEGATTDB_PERM_WRITE_REQ : Nat := 0x04

def UUID_SERVICE_GATT : Nat := 0x1801
def UUID_SERVICE_GAP : Nat := 0x1800
def UUID_SERVICE_LINK_LOSS : Nat := 0x1803
def UUID_SERVICE_IMMEDIATE_ALERT : Nat := 0x1802
def UUID_SERVICE_TX_POWER : Nat := 0x1804
def UUID_SERVICE_BATTERY : Nat := 0x180F

def UUID_CHARACTERISTIC_SERVICE_CHANGED : Nat := 0x2A05
def UUID_CHARACTERISTIC_DEVICE_NAME : Nat := 0x2A00
def UUID_CHARACTERISTIC_APPEARANCE : Nat := 0x2A01
def UUID_CHARACTERISTIC_ALERT_LEVEL : Nat := 0x2A06
def UUID_CHARACTERISTIC_TX_POWER_LEVEL : Nat := 0x2A07
def UUID_CHARACTERISTIC_BATTERY_LEVEL : Nat := 0x2A19
def UUID_CHARACTERISTIC_BATTERY_POWER_STATE : Nat := 0x2A1A
def UUID_CHARACTERISTIC_SERVICE_REQUIRED : Nat := 0x2A3B
def UUID_CHARACTERISTIC_REMOVABLE : Nat := 0x2A3A
def UUID_CHARACTERISTIC_BATTERY_LEVEL_STATE : Nat := 0x2A1B

def UUID_ATTRIBUTE_PRIMARY_SERVICE : Nat := 0x2800
def UUID_ATTRIBUTE_CHARACTERISTIC : Nat := 0x2803
def UUID_DESCRIPTOR_CLIENT_CHARACTERISTIC_CONFIGURATION : Nat := 0x2902
def UUID_DESCRIPTOR_SERVER_CHARACTERISTIC_CONFIGURATION : Nat := 0x2903

def BLEBAT_POWERSTATE_PRESENT_PRESENT : Nat := 0x03
def BLEBAT_POWERSTATE_DISCHARGING_NOTSUPPORTED : Nat := 0x04
def BLEBAT_POWERSTATE_CHARGING_NOTSUPPORTED : Nat := 0x10
def BLEBAT_POWERSTATE_LEVEL_GOODLEVEL : Nat := 0x80
def BLEBAT_SERVICEREQUIRED_NOSERVICEREQUIRED : Nat := 0x01
def BLEBAT_REMOVABLE_UNKNOWN : Nat := 0x00

/-! ## Attribute model

Per the external-interface schema of the spec, each table entry is
`{ handle, uuid_or_type, properties, permissions, max_len, initial_value }`. -/

structure Attr where
  handle : Nat
  attrType : Nat
  props : Nat
  perms : Nat
  maxLen : Nat
  value : List Nat
deriving Repr, DecidableEq

def uuid16Bytes (u : Nat) : List Nat := [u % 256, u / 256 % 256]

/-- Embedding of the `PRIMARY_SERVICE_UUID16(handle, uuid)` macro call: one
primary-service declaration attribute whose value is the 16-bit service UUID. -/
def PRIMARY_SERVICE_UUID16 (handle uuid : Nat) : List Attr :=
  [{ handle := handle, attrType := UUID_ATTRIBUTE_PRIMARY_SERVICE,
     props := LEGATTDB_CHAR_PROP_READ, perms := LEGATTDB_PERM_READABLE,
     maxLen := 2, value := uuid16Bytes uuid }]

/-- Embedding of the `CHARACTERISTIC_UUID16(handle, handle_value, uuid, props,
perms, len)` macro call followed by its literal initial-value bytes: a readable
characteristic declaration attribute plus the characteristic value attribute. -/
def CHARACTERISTIC_UUID16 (handle handleValue uuid props perms len : Nat)
    (init : List Nat) : List Attr :=
  [{ handle := handle, attrType := UUID_ATTRIBUTE_CHARACTERISTIC,
     props := LEGATTDB_CHAR_PROP_READ, perms := LEGATTDB_PERM_READABLE,
     maxLen := 5, value := props :: (uuid16Bytes handleValue ++ uuid16Bytes uuid) },
   { handle := handleValue, attrType := uuid, props := props, perms := perms,
     maxLen := len, value := init }]

/-- Embedding of the `CHARACTERISTIC_UUID16_WRITABLE` macro call; structurally
identical to `CHARACTERISTIC_UUID16` at this level of modelling (the macro pair
differs only in the writable flavor of the on-ROM entry layout). -/
def CHARACTERISTIC_UUID16_WRITABLE (handle handleValue uuid props perms len : Nat)
    (init : List Nat) : List Attr :=
  CHARACTERISTIC_UUID16 handle handleValue uuid props perms len init

/-- Embedding of the `CHAR_DESCRIPTOR_UUID16_WRITABLE(handle, uuid, perms, len)`
macro call followed by its literal initial-value bytes. -/
def CHAR_DESCRIPTOR_UUID16_WRITABLE (handle uuid perms len : Nat)
    (init : List Nat) : List Attr :=
  [{ handle := handle, attrType := uuid, props := 0, perms := perms,
     maxLen := len, value := init }]

/-- The GATT attribute table of `src/proximity.c` (`proximity_db_data`),
entry for entry in source order. -/
def proximity_db_data : List Attr :=
  -- GATT service
  PRIMARY_SERVICE_UUID16 0x0001 UUID_SERVICE_GATT ++
  CHARACTERISTIC_UUID16 0x0002 0x0003 UUID_CHARACTERISTIC_SERVICE_CHANGED
    LEGATTDB_CHAR_PROP_INDICATE LEGATTDB_PERM_NONE 4
    [0x00, 0x00, 0x00, 0x00] ++
  -- GAP service
  PRIMARY_SERVICE_UUID16 0x0014 UUID_SERVICE_GAP ++
  CHARACTERISTIC_UUID16 0x0015 0x0016 UUID_CHARACTERISTIC_DEVICE_NAME
    LEGATTDB_CHAR_PROP_READ LEGATTDB_PERM_READABLE 15
    [0x4C, 0x45, 0x20, 0x50, 0x72, 0x6F, 0x78, 0x20, 0x6B, 0x65, 0x79, 0x20,
     0x66, 0x6F, 0x62] ++
  CHARACTERISTIC_UUID16 0x0017 0x0018 UUID_CHARACTERISTIC_APPEARANCE
    LEGATTDB_CHAR_PROP_READ LEGATTDB_PERM_READABLE 2
    [0x00, 0x00] ++
  -- Link Loss service
  PRIMARY_SERVICE_UUID16 0x0028 UUID_SERVICE_LINK_LOSS ++
  CHARACTERISTIC_UUID16_WRITABLE 0x0029 0x002a UUID_CHARACTERISTIC_ALERT_LEVEL
    (LEGATTDB_CHAR_PROP_READ ||| LEGATTDB_CHAR_PROP_WRITE)
    (LEGATTDB_PERM_READABLE ||| LEGATTDB_PERM_WRITE_REQ) 1
    [0x01] ++
  -- Immediate alert service
  PRIMARY_SERVICE_UUID16 0x002B UUID_SERVICE_IMMEDIATE_ALERT ++
  CHARACTERISTIC_UUID16_WRITABLE 0x002c 0x002d UUID_CHARACTERISTIC_ALERT_LEVEL
    LEGATTDB_CHAR_PROP_WRITE_NO_RESPONSE LEGATTDB_PERM_WRITE_CMD 1
    [0x00] ++
  -- Tx Power service
  PRIMARY_SERVICE_UUID16 0x002e UUID_SERVICE_TX_POWER ++
  CHARACTERISTIC_UUID16 0x002f 0x0030 UUID_CHARACTERISTIC_TX_POWER_LEVEL
    LEGATTDB_CHAR_PROP_READ LEGATTDB_PERM_READABLE 1
    [0x04] ++
  -- Battery service
  PRIMARY_SERVICE_UUID16 0x0031 UUID_SERVICE_BATTERY ++
  CHARACTERISTIC_UUID16 0x0032 0x0033 UUID_CHARACTERISTIC_BATTERY_LEVEL
    (LEGATTDB_CHAR_PROP_READ ||| LEGATTDB_CHAR_PROP_NOTIFY) LEGATTDB_PERM_READABLE 1
    [0x64] ++
  CHAR_DESCRIPTOR_UUID16_WRITABLE 0x0034
    UUID_DESCRIPTOR_CLIENT_CHARACTERISTIC_CONFIGURATION
    (LEGATTDB_PERM_READABLE ||| LEGATTDB_PERM_WRITE_CMD ||| LEGATTDB_PERM_WRITE_REQ) 2
    [0x00, 0x00] ++
  CHARACTERISTIC_UUID16 0x041 0x0042 UUID_CHARACTERISTIC_BATTERY_POWER_STATE
    (LEGATTDB_CHAR_PROP_READ ||| LEGATTDB_CHAR_PROP_NOTIFY) LEGATTDB_PERM_READABLE 1
    [BLEBAT_POWERSTATE_PRESENT_PRESENT ||| BLEBAT_POWERSTATE_DISCHARGING_NOTSUPPORTED |||
     BLEBAT_POWERSTATE_CHARGING_NOTSUPPORTED ||| BLEBAT_POWERSTATE_LEVEL_GOODLEVEL] ++
  CHAR_DESCRIPTOR_UUID16_WRITABLE 0x0043
    UUID_DESCRIPTOR_CLIENT_CHARACTERISTIC_CONFIGURATION
    (LEGATTDB_PERM_READABLE ||| LEGATTDB_PERM_WRITE_CMD ||| LEGATTDB_PERM_WRITE_REQ) 2
    [0x00, 0x00] ++
  CHARACTERISTIC_UUID16 0x0044 0x0045 UUID_CHARACTERISTIC_SERVICE_REQUIRED
    (LEGATTDB_CHAR_PROP_READ ||| LEGATTDB_CHAR_PROP_NOTIFY) LEGATTDB_PERM_READABLE 1
    [BLEBAT_SERVICEREQUIRED_NOSERVICEREQUIRED] ++
  CHAR_DESCRIPTOR_UUID16_WRITABLE 0x0046
    UUID_DESCRIPTOR_CLIENT_CHARACTERISTIC_CONFIGURATION
    (LEGATTDB_PERM_READABLE ||| LEGATTDB_PERM_WRITE_CMD ||| LEGATTDB_PERM_WRITE_REQ) 2
    [0x00, 0x00] ++
  CHARACTERISTIC_UUID16 0x0047 0x0048 UUID_CHARACTERISTIC_REMOVABLE
    LEGATTDB_CHAR_PROP_READ LEGATTDB_PERM_READABLE 1
    [BLEBAT_REMOVABLE_UNKNOWN] ++
  CHARACTERISTIC_UUID16 0x004a 0x004b UUID_CHARACTERISTIC_BATTERY_LEVEL_STATE
    (LEGATTDB_CHAR_PROP_BROADCAST ||| LEGATTDB_CHAR_PROP_NOTIFY) LEGATTDB_PERM_NONE 5
    [0x64,
     BLEBAT_POWERSTATE_PRESENT_PRESENT ||| BLEBAT_POWERSTATE_DISCHARGING_NOTSUPPORTED |||
       BLEBAT_POWERSTATE_CHARGING_NOTSUPPORTED ||| BLEBAT_POWERSTATE_LEVEL_GOODLEVEL,
     0x00,
     0x00, 0x00] ++
  CHAR_DESCRIPTOR_UUID16_WRITABLE 0x004C
    UUID_DESCRIPTOR_CLIENT_CHARACTERISTIC_CONFIGURATION
    (LEGATTDB_PERM_READABLE ||| LEGATTDB_PERM_WRITE_CMD ||| LEGATTDB_PERM_WRITE_REQ) 2
    [0x00, 0x00] ++
  CHAR_DESCRIPTOR_UUID16_WRITABLE 0x004D
    UUID_DESCRIPTOR_SERVER_CHARACTERISTIC_CONFIGURATION
    (LEGATTDB_PERM_READABLE ||| LEGATTDB_PERM_WRITE_CMD ||| LEGATTDB_PERM_WRITE_REQ) 2
    [0x00, 0x00]

/-! ## Attribute store and access control -/

inductive GattError
  | NotFound
  | NotPermitted
  | InvalidLength
  | InvalidValue
deriving Repr, DecidableEq

inductive WriteType
  | withResponse
  | withoutResponse
deriving Repr, DecidableEq

/-- Find the attribute with the given handle (first match). -/
def findAttr : List Attr → Nat → Option Attr
  | [], _ => none
  | a :: t, h => if a.handle = h then some a else findAttr t h

/-- Current stored value of a handle (empty if the handle is absent). -/
def attrValue (db : List Attr) (h : Nat) : List Nat :=
  match findAttr db h with
  | some a => a.value
  | none => []

/-- Replace the stored value of the given handle. -/
def setAttrValue (db : List Attr) (h : Nat) (v : List Nat) : List Attr :=
  db.map (fun a => if a.handle = h then { a with value := v } else a)

/-- Modelled from the spec: the access-control predicate for writes (vendor-ROM
code, absent from src).  A write request (with response) requires the
`WRITE_REQ` permission bit, a write command (without response) the `WRITE_CMD`
bit. -/
def writePermOk (perms : Nat) : WriteType → Bool
  | .withResponse => perms &&& LEGATTDB_PERM_WRITE_REQ != 0
  | .withoutResponse => perms &&& LEGATTDB_PERM_WRITE_CMD != 0

/-- Modelled from the spec: the read permission check. -/
def readPermitted (db : List Attr) (h : Nat) : Bool :=
  match findAttr db h with
  | some a => a.perms &&& LEGATTDB_PERM_READABLE != 0
  | none => false

/-- Modelled from the spec: `read(handle)` of the Attribute Store (vendor-ROM
code, absent from src): unknown handle is `NotFound`, a missing readable bit is
`NotPermitted`, otherwise the stored bytes. -/
def readAttr (db : List Attr) (h : Nat) : Except GattError (List Nat) :=
  match findAttr db h with
  | none => .error .NotFound
  | some a =>
      if a.perms &&& LEGATTDB_PERM_READABLE != 0 then .ok a.value
      else .error .NotPermitted

/-- Modelled from the spec: `write(handle, bytes)` of the Attribute Store
(vendor-ROM code, absent from src).  Access control is checked before the
store access; an over-long value is `InvalidLength`; errors leave the table
unchanged. -/
def writeAttr (db : List Attr) (h : Nat) (wt : WriteType) (v : List Nat) :
    Except GattError Unit × List Attr :=
  match findAttr db h with
  | none => (.error .NotFound, db)
  | some a =>
      if writePermOk a.perms wt then
        if v.length ≤ a.maxLen then (.ok (), setAttrValue db h v)
        else (.error .InvalidLength, db)
      else (.error .NotPermitted, db)

/-- Pairwise distinctness of the declared handles. -/
def handlesNodup : List Attr → Bool
  | [] => true
  | a :: t => t.all (fun b => b.handle != a.handle) && handlesNodup t

/-- Modelled from the spec: build-time table validation (vendor-ROM code,
absent from src): reject an empty table, duplicate handles, or an initial
value longer than its declared max; a `none` result is the fatal
startup failure. -/
def buildTable (db : List Attr) : Option (List Attr) :=
  if db.isEmpty then none
  else if !handlesNodup db then none
  else if !db.all (fun a => decide (a.value.length ≤ a.maxLen)) then none
  else some db

/-! ## Proximity state machine, dispatcher, battery monitor

All modelled from the spec: the profile behavior is implemented inside the
closed vendor runtime and only implied by the GATT schema in src. -/

inductive AlertLevel
  | noAlert
  | mild
  | high
deriving Repr, DecidableEq

inductive ProxState
  | disconnected
  | connected
  | alertMild
  | alertHigh
deriving Repr, DecidableEq

inductive DiscReason
  | graceful
  | linkLoss
deriving Repr, DecidableEq

inductive Event
  | connect
  | disconnect (r : DiscReason)
  | writeReq (h : Nat) (wt : WriteType) (v : List Nat)
  | buttonAck
  | battSample (lvl : Nat)
deriving Repr, DecidableEq

instance {ε α : Type} [DecidableEq ε] [DecidableEq α] :
    DecidableEq (Except ε α) := fun a b =>
  match a, b with
  | .ok x, .ok y =>
      if h : x = y then isTrue (by rw [h])
      else isFalse (fun hc => h (by injection hc))
  | .error x, .error y =>
      if h : x = y then isTrue (by rw [h])
      else isFalse (fun hc => h (by injection hc))
  | .ok _, .error _ => isFalse (fun hc => Except.noConfusion hc)
  | .error _, .ok _ => isFalse (fun hc => Except.noConfusion hc)

inductive OutEvent
  | notifyOut (h : Nat) (v : List Nat)
  | soundAlert (l : AlertLevel)
  | stopAlert
  | writeResp (r : Except GattError Unit)
deriving Repr, DecidableEq

def HANDLE_LINK_LOSS_ALERT_LEVEL : Nat := 0x002a
def HANDLE_IMMEDIATE_ALERT_LEVEL : Nat := 0x002d
def HANDLE_BATTERY_LEVEL : Nat := 0x0033
def HANDLE_BATTERY_LEVEL_CCCD : Nat := 0x0034
def HANDLE_BATTERY_POWER_STATE : Nat := 0x0042

structure SysState where
  db : List Attr
  fsm : ProxState
  link_loss_alert_level : AlertLevel
  immediate_alert_level : AlertLevel
  level_percent : Nat
deriving Repr, DecidableEq

/-- Modelled from the spec: decoding of an Alert Level write payload;
`0 = None`, `1 = Mild`, `2 = High`, anything else is semantically invalid. -/
def decodeAlert : List Nat → Option AlertLevel
  | [b] =>
      if b = 0 then some .noAlert
      else if b = 1 then some .mild
      else if b = 2 then some .high
      else none
  | _ => none

/-- Actuator signal chosen for an immediate-alert level. -/
def actuatorFor : AlertLevel → OutEvent
  | .noAlert => .stopAlert
  | .mild => .soundAlert .mild
  | .high => .soundAlert .high

/-- Alert state entered on link loss for a stored level. -/
def alertStateFor : AlertLevel → ProxState
  | .noAlert => .disconnected
  | .mild => .alertMild
  | .high => .alertHigh

/-- Modelled from the spec: CCCD state is volatile per connection, so every
disconnect clears each CCCD attribute back to `0x0000`. -/
def resetCccds (db : List Attr) : List Attr :=
  db.map (fun a =>
    if a.attrType = UUID_DESCRIPTOR_CLIENT_CHARACTERISTIC_CONFIGURATION then
      { a with value := [0x00, 0x00] }
    else a)

/-- The CCCD descriptor handle of a notifying characteristic value handle. -/
def cccdOf (h : Nat) : Option Nat :=
  if h = HANDLE_BATTERY_LEVEL then some HANDLE_BATTERY_LEVEL_CCCD
  else if h = HANDLE_BATTERY_POWER_STATE then some 0x0043
  else if h = 0x0045 then some 0x0046
  else if h = 0x004b then some 0x004C
  else none

/-- Notify bit (bit 0 of the first CCCD byte) of a CCCD handle. -/
def notifyEnabled (db : List Attr) (ch : Nat) : Bool :=
  match attrValue db ch with
  | b :: _ => b &&& 1 != 0
  | [] => false

/-- Indicate bit (bit 1 of the first CCCD byte) of a CCCD handle. -/
def indicateEnabled (db : List Attr) (ch : Nat) : Bool :=
  match attrValue db ch with
  | b :: _ => b &&& 2 != 0
  | [] => false

/-- Modelled from the spec: the Notification Dispatcher's `on_value_changed`
(vendor-ROM code, absent from src): look up the changed handle's CCCD and emit
a notify event with the current value exactly when the notify bit is set. -/
def on_value_changed (db : List Attr) (h : Nat) : List OutEvent :=
  match cccdOf h with
  | some ch =>
      if notifyEnabled db ch then [.notifyOut h (attrValue db h)] else []
  | none => []

/-- Modelled from the spec: one step of the serialized event loop — Proximity
State Machine, Attribute Store write path and Battery Monitor (all vendor-ROM
code, absent from src).  Returns the next state and the outbound events. -/
def step (s : SysState) : Event → SysState × List OutEvent
  | .connect =>
      ({ s with fsm := .connected,
                link_loss_alert_level :=
                  (decodeAlert (attrValue s.db HANDLE_LINK_LOSS_ALERT_LEVEL)).getD .noAlert,
                immediate_alert_level := .noAlert },
       if s.fsm = .alertMild ∨ s.fsm = .alertHigh then [.stopAlert] else [])
  | .disconnect r =>
      let db' := resetCccds s.db
      if s.fsm = .connected then
        match r with
        | .graceful => ({ s with db := db', fsm := .disconnected }, [])
        | .linkLoss =>
            if s.link_loss_alert_level = .noAlert then
              ({ s with db := db', fsm := .disconnected }, [])
            else
              ({ s with db := db', fsm := alertStateFor s.link_loss_alert_level },
               [.soundAlert s.link_loss_alert_level])
      else ({ s with db := db' }, [])
  | .writeReq h wt v =>
      match writeAttr s.db h wt v with
      | (.error e, _) => (s, [.writeResp (.error e)])
      | (.ok _, db') =>
          if h = HANDLE_IMMEDIATE_ALERT_LEVEL then
            match decodeAlert v with
            | none => (s, [.writeResp (.error .InvalidValue)])
            | some lvl =>
                if s.fsm = .connected then
                  ({ s with db := db', immediate_alert_level := lvl },
                   [.writeResp (.ok ()), actuatorFor lvl])
                else ({ s with db := db' }, [.writeResp (.ok ())])
          else if h = HANDLE_LINK_LOSS_ALERT_LEVEL then
            match decodeAlert v with
            | none => (s, [.writeResp (.error .InvalidValue)])
            | some lvl =>
                ({ s with db := db', link_loss_alert_level := lvl },
                 [.writeResp (.ok ())])
          else ({ s with db := db' }, [.writeResp (.ok ())])
  | .buttonAck =>
      if s.fsm = .alertMild ∨ s.fsm = .alertHigh then
        ({ s with fsm := .disconnected }, [.stopAlert])
      else (s, [])
  | .battSample lvl =>
      if lvl = s.level_percent then (s, [])
      else
        let db' := setAttrValue s.db HANDLE_BATTERY_LEVEL [lvl]
        ({ s with db := db', level_percent := lvl },
         on_value_changed db' HANDLE_BATTERY_LEVEL ++
           on_value_changed db' HANDLE_BATTERY_POWER_STATE)

/-- Run the event loop over a list of events, collecting all outputs. -/
def run (s : SysState) : List Event → SysState × List OutEvent
  | [] => (s, [])
  | e :: es =>
      let p := step s e
      let q := run p.1 es
      (q.1, p.2 ++ q.2)

/-- The state right after startup: validated table loaded, no connection. -/
def initState : SysState :=
  { db := proximity_db_data, fsm := .disconnected,
    link_loss_alert_level := .noAlert, immediate_alert_level := .noAlert,
    level_percent := 0x64 }

/-- Number of `SoundAlert` outputs in an output list. -/
def soundCount (os : List OutEvent) : Nat :=
  (os.filter (fun o => match o with | .soundAlert _ => true | _ => false)).length

/-- The notify outputs carrying a given attribute handle. -/
def notifiesOn (h : Nat) (os : List OutEvent) : List OutEvent :=
  os.filter (fun o => match o with | .notifyOut h' _ => h' == h | _ => false)

/-- Number of actuator outputs (`SoundAlert` or `StopAlert`) in a list. -/
def actuatorCount (os : List OutEvent) : Nat :=
  (os.filter (fun o =>
    match o with | .soundAlert _ => true | .stopAlert => true | _ => false)).length

/-- The Immediate Alert Level value attribute as declared at src line 107-109. -/
def immediateAlertAttr : Attr :=
  { handle := 0x002d, attrType := UUID_CHARACTERISTIC_ALERT_LEVEL,
    props := LEGATTDB_CHAR_PROP_WRITE_NO_RESPONSE, perms := LEGATTDB_PERM_WRITE_CMD,
    maxLen := 1, value := [0x00] }

/-- Executable strict-increase check on a list of handles. -/
def strictlyInc : List Nat → Bool
  | [] => true
  | [_] => true
  | a :: b :: t => decide (a < b) && strictlyInc (b :: t)

/-- A CCCD attribute (and only a CCCD attribute) is back at `0x0000`. -/
def cccdCleared (a : Attr) : Bool :=
  a.attrType != UUID_DESCRIPTOR_CLIENT_CHARACTERISTIC_CONFIGURATION ||
    a.value == [0x00, 0x00]

/-- The state after Connect from startup, used by several witnesses. -/
def connState : SysState := (step initState Event.connect).1

/-- `connState` after the peer enables notifications on the Battery Level
CCCD, used by several witnesses. -/
def subscribedState : SysState :=
  (step connState
    (Event.writeReq HANDLE_BATTERY_LEVEL_CCCD WriteType.withResponse [0x01, 0x00])).1

/-! ## Store lemmas -/

theorem findAttr_setAttrValue_self (db : List Attr) (h : Nat) (v : List Nat) :
    findAttr (setAttrValue db h v) h =
      Option.map (fun a => { a with value := v }) (findAttr db h) := by
  induction db with
  | nil => rfl
  | cons a t ih =>
      simp only [setAttrValue, List.map_cons] at ih ⊢
      by_cases ha : a.handle = h
      · simp [findAttr, ha]
      · simp [findAttr, ha, ih]

theorem findAttr_setAttrValue_ne (db : List Attr) (h h' : Nat) (v : List Nat)
    (hne : h' ≠ h) :
    findAttr (setAttrValue db h v) h' = findAttr db h' := by
  induction db with
  | nil => rfl
  | cons a t ih =>
      simp only [setAttrValue, List.map_cons] at ih ⊢
      by_cases ha : a.handle = h
      · have hne' : ¬ a.handle = h' := by rw [ha]; exact fun hc => hne hc.symm
        rw [if_pos ha]
        simp [findAttr, hne', ih]
      · rw [if_neg ha]
        simp [findAttr, ih]

theorem findAttr_resetCccds (db : List Attr) (h : Nat) :
    findAttr (resetCccds db) h =
      Option.map (fun a =>
        if a.attrType = UUID_DESCRIPTOR_CLIENT_CHARACTERISTIC_CONFIGURATION then
          { a with value := [0x00, 0x00] }
        else a) (findAttr db h) := by
  induction db with
  | nil => rfl
  | cons a t ih =>
      simp only [resetCccds, List.map_cons] at ih ⊢
      by_cases ha : a.handle = h
      · by_cases hty : a.attrType = UUID_DESCRIPTOR_CLIENT_CHARACTERISTIC_CONFIGURATION
        · simp [findAttr, ha, hty]
        · simp [findAttr, ha, hty]
      · by_cases hty : a.attrType = UUID_DESCRIPTOR_CLIENT_CHARACTERISTIC_CONFIGURATION
        · simp [findAttr, ha, hty, ih]
        · simp [findAttr, ha, hty, ih]

theorem writeAttr_ok_db (db : List Attr) (h : Nat) (wt : WriteType) (v : List Nat)
    (db' : List Attr) (hw : writeAttr db h wt v = (.ok (), db')) :
    db' = setAttrValue db h v := by
  unfold writeAttr at hw
  cases hfind : findAttr db h with
  | none => rw [hfind] at hw; cases hw
  | some a =>
      rw [hfind] at hw
      by_cases hp : writePermOk a.perms wt
      · by_cases hl : v.length ≤ a.maxLen
        · simp [hp, hl] at hw; exact hw.symm
        · simp [hp, hl] at hw
      · simp [hp] at hw

/-- A successful write implies the handle exists, the write type was
permitted, and the value fit the declared max. -/
theorem writeAttr_ok_perm (db : List Attr) (h : Nat) (wt : WriteType) (v : List Nat)
    (db' : List Attr) (hw : writeAttr db h wt v = (.ok (), db')) :
    ∃ a, findAttr db h = some a ∧ writePermOk a.perms wt = true ∧
      v.length ≤ a.maxLen := by
  unfold writeAttr at hw
  cases hfind : findAttr db h with
  | none => rw [hfind] at hw; cases hw
  | some a =>
      rw [hfind] at hw
      by_cases hp : writePermOk a.perms wt
      · by_cases hl : v.length ≤ a.maxLen
        · exact ⟨a, rfl, hp, hl⟩
        · simp [hp, hl] at hw
      · simp [hp] at hw

/-! ## Claims about the attribute store -/

/-- Claim C3: for every attribute handle and byte sequence, a write that returns Ok
followed by a read of the same handle (read being permitted) returns exactly
the written bytes. -/
theorem C3_write_read_roundtrip (db : List Attr) (h : Nat) (wt : WriteType)
    (v : List Nat) (db' : List Attr)
    (hw : writeAttr db h wt v = (.ok (), db'))
    (hr : readPermitted db' h = true) :
    readAttr db' h = .ok v := by
  obtain ⟨a, hfind, hp, hl⟩ := writeAttr_ok_perm db h wt v db' hw
  have hdb' := writeAttr_ok_db db h wt v db' hw
  subst hdb'
  have hfind' : findAttr (setAttrValue db h v) h = some { a with value := v } := by
    rw [findAttr_setAttrValue_self, hfind]; rfl
  unfold readPermitted at hr
  rw [hfind'] at hr
  unfold readAttr
  rw [hfind']
  simp only at hr ⊢
  simp [hr]

/-- Witness for C3 at the Link Loss Alert Level attribute (handle 0x2a). -/
theorem C3_witness :
    writeAttr proximity_db_data 0x002a WriteType.withResponse [0x02] =
      (Except.ok (), setAttrValue proximity_db_data 0x002a [0x02]) ∧
    readPermitted (setAttrValue proximity_db_data 0x002a [0x02]) 0x002a = true ∧
    readAttr (setAttrValue proximity_db_data 0x002a [0x02]) 0x002a = Except.ok [0x02] :=
  ⟨by decide, by decide,
   C3_write_read_roundtrip proximity_db_data 0x002a WriteType.withResponse [0x02]
     (setAttrValue proximity_db_data 0x002a [0x02]) (by decide) (by decide)⟩

/-- Claim C4 as stated is falsified at the Device Name attribute (handle 0x0016,
declared max 15, permission bits read-only): a 16-byte write is rejected with
NotPermitted under both write types (access control is checked first), not
with InvalidLength. -/
theorem C4_counterexample :
    Option.map Attr.maxLen (findAttr proximity_db_data 0x0016) = some 15 ∧
    (writeAttr proximity_db_data 0x0016 WriteType.withResponse
        (List.replicate 16 0x00)).1 = Except.error GattError.NotPermitted ∧
    (writeAttr proximity_db_data 0x0016 WriteType.withoutResponse
        (List.replicate 16 0x00)).1 = Except.error GattError.NotPermitted ∧
    (Except.error GattError.NotPermitted : Except GattError Unit) ≠
      Except.error GattError.InvalidLength := by
  refine ⟨by decide, by decide, by decide, ?_⟩
  intro hc
  injection hc with hc'
  cases hc'

/-- Claim C4 (amended): a write whose permission check passes but whose value is
longer than the attribute's declared max is rejected with InvalidLength and
the table — in particular the attribute's stored value — is unchanged. -/
theorem C4_invalid_length (db : List Attr) (h : Nat) (wt : WriteType)
    (v : List Nat) (a : Attr) (ha : findAttr db h = some a)
    (hp : writePermOk a.perms wt = true) (hl : a.maxLen < v.length) :
    writeAttr db h wt v = (.error .InvalidLength, db) := by
  have hnle : ¬ (v.length ≤ a.maxLen) := by omega
  unfold writeAttr
  rw [ha]
  simp [hp, hnle]

/-- Witness for C4 (amended) at the Link Loss Alert Level attribute:
a two-byte write to a one-byte attribute with write permission present. -/
theorem C4_witness :
    writePermOk LEGATTDB_PERM_WRITE_REQ WriteType.withResponse = true ∧
    writeAttr proximity_db_data 0x002a WriteType.withResponse [0x01, 0x01] =
      (Except.error GattError.InvalidLength, proximity_db_data) :=
  ⟨by decide,
   C4_invalid_length proximity_db_data 0x002a WriteType.withResponse [0x01, 0x01]
     { handle := 0x002a, attrType := UUID_CHARACTERISTIC_ALERT_LEVEL,
       props := LEGATTDB_CHAR_PROP_READ ||| LEGATTDB_CHAR_PROP_WRITE,
       perms := LEGATTDB_PERM_READABLE ||| LEGATTDB_PERM_WRITE_REQ,
       maxLen := 1, value := [0x01] }
     (by decide) (by decide) (by decide)⟩

/-- Claim C5: a read of an attribute without the readable bit, and a write whose
type does not match the attribute's write permission bits, are rejected with
NotPermitted, and the table is returned unchanged. -/
theorem C5_not_permitted (db : List Attr) (h : Nat) (wt : WriteType)
    (v : List Nat) (a : Attr) (ha : findAttr db h = some a) :
    (a.perms &&& LEGATTDB_PERM_READABLE = 0 →
      readAttr db h = .error .NotPermitted) ∧
    (writePermOk a.perms wt = false →
      writeAttr db h wt v = (.error .NotPermitted, db)) := by
  constructor
  · intro hz
    unfold readAttr
    rw [ha]
    simp [hz]
  · intro hpf
    unfold writeAttr
    rw [ha]
    simp [hpf]

/-- Witness for C5 at the Immediate Alert Level attribute (handle 0x2d):
no readable bit, no write-with-response bit. -/
theorem C5_witness :
    findAttr proximity_db_data 0x002d = some immediateAlertAttr ∧
    immediateAlertAttr.perms &&& LEGATTDB_PERM_READABLE = 0 ∧
    writePermOk immediateAlertAttr.perms WriteType.withResponse = false ∧
    readAttr proximity_db_data 0x002d = Except.error GattError.NotPermitted ∧
    writeAttr proximity_db_data 0x002d WriteType.withResponse [0x01] =
      (Except.error GattError.NotPermitted, proximity_db_data) :=
  ⟨by decide, by decide, by decide,
   (C5_not_permitted proximity_db_data 0x002d WriteType.withResponse [0x01]
      immediateAlertAttr (by decide)).1 (by decide),
   (C5_not_permitted proximity_db_data 0x002d WriteType.withResponse [0x01]
      immediateAlertAttr (by decide)).2 (by decide)⟩

/-- Claim C10: the Immediate Alert Level value attribute (handle 0x2d) carries only
the write-without-response permission — reads and writes-with-response are
rejected with NotPermitted while a write command succeeds — in contrast to the
Link Loss Alert Level attribute (handle 0x2a), which is readable and
writable-with-response. -/
theorem C10_immediate_alert_permissions :
    Option.map Attr.perms (findAttr proximity_db_data HANDLE_IMMEDIATE_ALERT_LEVEL) =
      some LEGATTDB_PERM_WRITE_CMD ∧
    readAttr proximity_db_data HANDLE_IMMEDIATE_ALERT_LEVEL =
      Except.error GattError.NotPermitted ∧
    (∀ v : List Nat,
      (writeAttr proximity_db_data HANDLE_IMMEDIATE_ALERT_LEVEL
          WriteType.withResponse v).1 = Except.error GattError.NotPermitted) ∧
    (writeAttr proximity_db_data HANDLE_IMMEDIATE_ALERT_LEVEL
        WriteType.withoutResponse [0x01]).1 = Except.ok () ∧
    Option.map Attr.perms (findAttr proximity_db_data HANDLE_LINK_LOSS_ALERT_LEVEL) =
      some (LEGATTDB_PERM_READABLE ||| LEGATTDB_PERM_WRITE_REQ) ∧
    readAttr proximity_db_data HANDLE_LINK_LOSS_ALERT_LEVEL = Except.ok [0x01] ∧
    (writeAttr proximity_db_data HANDLE_LINK_LOSS_ALERT_LEVEL
        WriteType.withResponse [0x02]).1 = Except.ok () := by
  refine ⟨by decide, by decide, ?_, by decide, by decide, by decide, by decide⟩
  intro v
  have hf : findAttr proximity_db_data HANDLE_IMMEDIATE_ALERT_LEVEL =
      some immediateAlertAttr := by decide
  have hperm : writePermOk immediateAlertAttr.perms WriteType.withResponse = false := by
    decide
  unfold writeAttr
  rw [hf]
  simp [hperm]

/-! ## Claims about table building and connection setup -/

theorem strictlyInc_chain' :
    ∀ l : List Nat, strictlyInc l = true ↔ List.Chain' (fun a b => a < b) l
  | [] => by simp [strictlyInc]
  | [a] => by simp [strictlyInc]
  | a :: b :: t => by
      have ih := strictlyInc_chain' (b :: t)
      simp [strictlyInc, List.chain'_cons, ih]

/-- Claim C6: building the table fails fatally exactly when the declaration list is
empty, has duplicate handles, or contains an initial value longer than its
declared max; the concrete proximity table passes all three checks, its
handles are strictly increasing, and every initial value has exactly its
declared length. -/
theorem C6_build_validation :
    (∀ db : List Attr,
      buildTable db = none ↔
        (db = [] ∨ handlesNodup db = false ∨
          db.all (fun a => decide (a.value.length ≤ a.maxLen)) = false)) ∧
    buildTable proximity_db_data = some proximity_db_data ∧
    List.Chain' (fun a b => a < b) (proximity_db_data.map Attr.handle) ∧
    proximity_db_data.all (fun a => decide (a.value.length = a.maxLen)) = true := by
  refine ⟨?_, by decide,
    (strictlyInc_chain' (proximity_db_data.map Attr.handle)).mp (by decide), by decide⟩
  intro db
  unfold buildTable
  by_cases he : db.isEmpty
  · have hnil : db = [] := by
      cases db with
      | nil => rfl
      | cons a t => simp [List.isEmpty] at he
    simp [he, hnil]
  · have hne : ¬ db = [] := by
      cases db with
      | nil => simp [List.isEmpty] at he
      | cons a t => simp
    rw [if_neg he]
    by_cases hd : handlesNodup db
    · rw [if_neg (by simp [hd])]
      by_cases hl : db.all (fun a => decide (a.value.length ≤ a.maxLen))
      · rw [if_neg (by simp [hl])]
        simp [hne, hd, hl]
      · rw [if_pos (by simp [hl])]
        simp only [Bool.not_eq_true] at hl
        simp [hl]
    · rw [if_pos (by simp [hd])]
      simp only [Bool.not_eq_true] at hd
      simp [hd]

/-- Witness for C6: the empty table is rejected and the concrete table builds. -/
theorem C6_witness :
    buildTable ([] : List Attr) = none ∧
    buildTable proximity_db_data = some proximity_db_data :=
  ⟨(C6_build_validation.1 []).mpr (Or.inl rfl), C6_build_validation.2.1⟩

/-- Claim C7: a Connect event creates a session whose link-loss alert level equals
the persisted Link Loss Alert Level characteristic value — Mild by default in
the concrete table (initial byte 0x01) — and whose immediate alert level is
None. -/
theorem C7_connect_session (s : SysState) (l : AlertLevel)
    (hl : decodeAlert (attrValue s.db HANDLE_LINK_LOSS_ALERT_LEVEL) = some l) :
    (step s Event.connect).1.fsm = ProxState.connected ∧
    (step s Event.connect).1.link_loss_alert_level = l ∧
    (step s Event.connect).1.immediate_alert_level = AlertLevel.noAlert ∧
    decodeAlert (attrValue initState.db HANDLE_LINK_LOSS_ALERT_LEVEL) =
      some AlertLevel.mild := by
  refine ⟨rfl, ?_, rfl, by decide⟩
  simp [step, hl]

/-- Witness for C7 at the startup state: the default session level is Mild. -/
theorem C7_witness :
    decodeAlert (attrValue initState.db HANDLE_LINK_LOSS_ALERT_LEVEL) =
      some AlertLevel.mild ∧
    (step initState Event.connect).1.fsm = ProxState.connected ∧
    (step initState Event.connect).1.link_loss_alert_level = AlertLevel.mild ∧
    (step initState Event.connect).1.immediate_alert_level = AlertLevel.noAlert :=
  ⟨by decide,
   (C7_connect_session initState AlertLevel.mild (by decide)).1,
   (C7_connect_session initState AlertLevel.mild (by decide)).2.1,
   (C7_connect_session initState AlertLevel.mild (by decide)).2.2.1⟩

/-! ## Claims about the dispatcher and battery monitor -/

theorem resetCccds_all_cleared (db : List Attr) :
    (resetCccds db).all cccdCleared = true := by
  induction db with
  | nil => rfl
  | cons a t ih =>
      simp only [resetCccds, List.map_cons, List.all_cons] at ih ⊢
      by_cases hty : a.attrType = UUID_DESCRIPTOR_CLIENT_CHARACTERISTIC_CONFIGURATION
      · simp [hty, cccdCleared, ih]
      · simp [hty, cccdCleared, ih]

theorem step_disconnect_db (s : SysState) (r : DiscReason) :
    (step s (Event.disconnect r)).1.db = resetCccds s.db := by
  cases r with
  | graceful => by_cases hc : s.fsm = ProxState.connected <;> simp [step, hc]
  | linkLoss =>
      by_cases hc : s.fsm = ProxState.connected
      · simp only [step, hc, if_pos]
        split_ifs <;> rfl
      · simp [step, hc]

/-- Claim C8: every disconnect event clears all CCCD state — in particular notify
and indicate become disabled on the given CCCD — and `on_value_changed`
produces exactly one Notify with the current value when the handle's CCCD has
notify enabled, and nothing when it does not. -/
theorem C8_cccd_reset_dispatch (s : SysState) (r : DiscReason) (db : List Attr)
    (h ch : Nat) (hch : cccdOf h = some ch)
    (hty : Option.map Attr.attrType (findAttr s.db ch) =
      some UUID_DESCRIPTOR_CLIENT_CHARACTERISTIC_CONFIGURATION) :
    ((step s (Event.disconnect r)).1.db).all cccdCleared = true ∧
    notifyEnabled (step s (Event.disconnect r)).1.db ch = false ∧
    indicateEnabled (step s (Event.disconnect r)).1.db ch = false ∧
    (notifyEnabled db ch = true →
      on_value_changed db h = [OutEvent.notifyOut h (attrValue db h)]) ∧
    (notifyEnabled db ch = false → on_value_changed db h = []) := by
  have hdb := step_disconnect_db s r
  obtain ⟨a, hfind, haty⟩ :
      ∃ a, findAttr s.db ch = some a ∧
        a.attrType = UUID_DESCRIPTOR_CLIENT_CHARACTERISTIC_CONFIGURATION := by
    cases hf : findAttr s.db ch with
    | none => rw [hf] at hty; cases hty
    | some a => rw [hf] at hty; exact ⟨a, rfl, by injection hty⟩
  have hfind' : findAttr (resetCccds s.db) ch = some { a with value := [0x00, 0x00] } := by
    rw [findAttr_resetCccds, hfind]
    simp [haty]
  refine ⟨?_, ?_, ?_, ?_, ?_⟩
  · rw [hdb]; exact resetCccds_all_cleared s.db
  · rw [hdb]; unfold notifyEnabled attrValue; rw [hfind']; rfl
  · rw [hdb]; unfold indicateEnabled attrValue; rw [hfind']; rfl
  · intro hn
    unfold on_value_changed
    rw [hch]
    simp [hn]
  · intro hn
    unfold on_value_changed
    rw [hch]
    simp [hn]

/-- Witness for C8 at the Battery Level characteristic with its CCCD enabled. -/
theorem C8_witness :
    cccdOf HANDLE_BATTERY_LEVEL = some HANDLE_BATTERY_LEVEL_CCCD ∧
    Option.map Attr.attrType (findAttr subscribedState.db HANDLE_BATTERY_LEVEL_CCCD) =
      some UUID_DESCRIPTOR_CLIENT_CHARACTERISTIC_CONFIGURATION ∧
    notifyEnabled subscribedState.db HANDLE_BATTERY_LEVEL_CCCD = true ∧
    ((step subscribedState (Event.disconnect DiscReason.graceful)).1.db).all
      cccdCleared = true ∧
    notifyEnabled (step subscribedState (Event.disconnect DiscReason.graceful)).1.db
      HANDLE_BATTERY_LEVEL_CCCD = false ∧
    indicateEnabled (step subscribedState (Event.disconnect DiscReason.graceful)).1.db
      HANDLE_BATTERY_LEVEL_CCCD = false ∧
    on_value_changed subscribedState.db HANDLE_BATTERY_LEVEL =
      [OutEvent.notifyOut HANDLE_BATTERY_LEVEL
        (attrValue subscribedState.db HANDLE_BATTERY_LEVEL)] := by
  have hmain := C8_cccd_reset_dispatch subscribedState DiscReason.graceful
    subscribedState.db HANDLE_BATTERY_LEVEL HANDLE_BATTERY_LEVEL_CCCD
    (by decide) (by decide)
  exact ⟨by decide, by decide, by decide, hmain.1, hmain.2.1, hmain.2.2.1,
    hmain.2.2.2.1 (by decide)⟩

theorem notifyEnabled_setAttrValue_ne (db : List Attr) (h ch : Nat) (v : List Nat)
    (hne : ch ≠ h) :
    notifyEnabled (setAttrValue db h v) ch = notifyEnabled db ch := by
  unfold notifyEnabled attrValue
  rw [findAttr_setAttrValue_ne db h ch v hne]

/-- Claim C9 as stated is falsified right after connecting: the stored battery level
is 100 and a sample of 99 differs, yet no Notify at all is produced on the
Battery Level characteristic, because the freshly created connection has the
Battery Level CCCD at its reset value (notify disabled). -/
theorem C9_counterexample :
    connState.level_percent = 100 ∧
    (99 : Nat) ≠ connState.level_percent ∧
    notifyEnabled connState.db HANDLE_BATTERY_LEVEL_CCCD = false ∧
    notifiesOn HANDLE_BATTERY_LEVEL (step connState (Event.battSample 99)).2 = [] :=
  ⟨by decide, by decide, by decide, by decide⟩

/-- Claim C9 (amended): provided the Battery Level CCCD has notify enabled, a sample
differing from the stored level produces exactly one Notify on the Battery
Level characteristic carrying the new value, and a sample equal to the stored
level produces no output and leaves the state unchanged. -/
theorem C9_battery_notify (s : SysState) (lvl : Nat) (a : Attr)
    (ha : findAttr s.db HANDLE_BATTERY_LEVEL = some a)
    (hn : notifyEnabled s.db HANDLE_BATTERY_LEVEL_CCCD = true) :
    (lvl ≠ s.level_percent →
      notifiesOn HANDLE_BATTERY_LEVEL (step s (Event.battSample lvl)).2 =
        [OutEvent.notifyOut HANDLE_BATTERY_LEVEL [lvl]]) ∧
    (lvl = s.level_percent → step s (Event.battSample lvl) = (s, [])) := by
  constructor
  · intro hne
    have h34 : notifyEnabled (setAttrValue s.db HANDLE_BATTERY_LEVEL [lvl])
        HANDLE_BATTERY_LEVEL_CCCD = true := by
      rw [notifyEnabled_setAttrValue_ne _ _ _ _ (by decide)]
      exact hn
    have h33v : attrValue (setAttrValue s.db HANDLE_BATTERY_LEVEL [lvl])
        HANDLE_BATTERY_LEVEL = [lvl] := by
      unfold attrValue
      rw [findAttr_setAttrValue_self, ha]
      rfl
    have hovc1 : on_value_changed (setAttrValue s.db HANDLE_BATTERY_LEVEL [lvl])
        HANDLE_BATTERY_LEVEL = [OutEvent.notifyOut HANDLE_BATTERY_LEVEL [lvl]] := by
      unfold on_value_changed
      rw [show cccdOf HANDLE_BATTERY_LEVEL = some HANDLE_BATTERY_LEVEL_CCCD from rfl]
      simp [h34, h33v]
    have hovc2 : notifiesOn HANDLE_BATTERY_LEVEL
        (on_value_changed (setAttrValue s.db HANDLE_BATTERY_LEVEL [lvl])
          HANDLE_BATTERY_POWER_STATE) = [] := by
      unfold on_value_changed
      rw [show cccdOf HANDLE_BATTERY_POWER_STATE = some (0x0043 : Nat) from rfl]
      by_cases hb : notifyEnabled (setAttrValue s.db HANDLE_BATTERY_LEVEL [lvl]) 0x0043
      · simp [hb, notifiesOn]
        decide
      · simp [hb, notifiesOn]
    simp only [step]
    rw [if_neg hne]
    unfold notifiesOn at hovc2 ⊢
    rw [List.filter_append, hovc1, hovc2, List.append_nil]
    rfl
  · intro heq
    simp [step, heq]

/-- Witness for C9 (amended) in the subscribed state: a 99% sample after 100%
yields exactly one Notify with value 99; a repeated 100% sample yields none. -/
theorem C9_witness :
    subscribedState.level_percent = 100 ∧
    notifyEnabled subscribedState.db HANDLE_BATTERY_LEVEL_CCCD = true ∧
    notifiesOn HANDLE_BATTERY_LEVEL (step subscribedState (Event.battSample 99)).2 =
      [OutEvent.notifyOut HANDLE_BATTERY_LEVEL [99]] ∧
    step subscribedState (Event.battSample 100) = (subscribedState, []) := by
  have hmain := C9_battery_notify subscribedState 99
    { handle := HANDLE_BATTERY_LEVEL, attrType := UUID_CHARACTERISTIC_BATTERY_LEVEL,
      props := LEGATTDB_CHAR_PROP_READ ||| LEGATTDB_CHAR_PROP_NOTIFY,
      perms := LEGATTDB_PERM_READABLE, maxLen := 1, value := [0x64] }
    (by decide) (by decide)
  have hmain2 := C9_battery_notify subscribedState 100
    { handle := HANDLE_BATTERY_LEVEL, attrType := UUID_CHARACTERISTIC_BATTERY_LEVEL,
      props := LEGATTDB_CHAR_PROP_READ ||| LEGATTDB_CHAR_PROP_NOTIFY,
      perms := LEGATTDB_PERM_READABLE, maxLen := 1, value := [0x64] }
    (by decide) (by decide)
  exact ⟨by decide, by decide, hmain.1 (by decide), hmain2.2 (by decide)⟩

/-! ## Claims about the proximity state machine -/

theorem soundCount_append (os os' : List OutEvent) :
    soundCount (os ++ os') = soundCount os + soundCount os' := by
  simp [soundCount, List.filter_append]

theorem soundCount_on_value_changed (db : List Attr) (h : Nat) :
    soundCount (on_value_changed db h) = 0 := by
  unfold on_value_changed
  cases cccdOf h with
  | none => rfl
  | some ch => by_cases hn : notifyEnabled db ch <;> simp [hn, soundCount]

/-- While no connection is up, no event other than Connect can produce a
SoundAlert, and the machine stays out of the Connected state. -/
theorem step_no_connect (s : SysState) (e : Event)
    (hf : s.fsm ≠ ProxState.connected) (he : e ≠ Event.connect) :
    soundCount (step s e).2 = 0 ∧ (step s e).1.fsm ≠ ProxState.connected := by
  cases e with
  | connect => exact absurd rfl he
  | disconnect r => simp [step, hf, soundCount]
  | writeReq h wt v =>
      rcases hw : writeAttr s.db h wt v with ⟨r, d⟩
      cases r with
      | error e' => simp [step, hw, soundCount, hf]
      | ok u =>
          cases u
          by_cases h1 : h = HANDLE_IMMEDIATE_ALERT_LEVEL
          · subst h1
            cases hd : decodeAlert v with
            | none => simp [step, hw, hd, soundCount, hf]
            | some lvl => simp [step, hw, hd, soundCount, hf]
          · by_cases h2 : h = HANDLE_LINK_LOSS_ALERT_LEVEL
            · subst h2
              cases hd : decodeAlert v with
              | none => simp [step, hw, h1, hd, soundCount, hf]
              | some lvl => simp [step, hw, h1, hd, soundCount, hf]
            · simp [step, hw, h1, h2, soundCount, hf]
  | buttonAck =>
      by_cases hb : s.fsm = ProxState.alertMild ∨ s.fsm = ProxState.alertHigh
      · simp [step, hb, soundCount]
      · simp [step, hb, soundCount, hf]
  | battSample lvl =>
      by_cases hl : lvl = s.level_percent
      · simp [step, hl, soundCount, hf]
      · simp [step, hl, soundCount_append, soundCount_on_value_changed, hf]

theorem run_no_connect_sound (es : List Event) (s : SysState)
    (hf : s.fsm ≠ ProxState.connected) (hes : ∀ e ∈ es, e ≠ Event.connect) :
    soundCount (run s es).2 = 0 := by
  induction es generalizing s with
  | nil => rfl
  | cons e t ih =>
      obtain ⟨h1, h2⟩ := step_no_connect s e hf (hes e (List.mem_cons_self e t))
      simp only [run, soundCount_append]
      rw [h1, ih (step s e).1 h2 (fun e' he' => hes e' (List.mem_cons_of_mem e he'))]

/-- Claim C1: from a connected state, a graceful disconnect followed by any events
up to (but not including) the next Connect produces no SoundAlert at all; a
link-loss disconnect while the stored link-loss alert level is not None
produces exactly one SoundAlert over the same span. -/
theorem C1_disconnect_alert (s : SysState) (es : List Event)
    (hc : s.fsm = ProxState.connected)
    (hes : ∀ e ∈ es, e ≠ Event.connect) :
    soundCount (run s (Event.disconnect DiscReason.graceful :: es)).2 = 0 ∧
    (s.link_loss_alert_level ≠ AlertLevel.noAlert →
      soundCount (run s (Event.disconnect DiscReason.linkLoss :: es)).2 = 1) := by
  constructor
  · have hstep : step s (Event.disconnect DiscReason.graceful) =
        ({ s with db := resetCccds s.db, fsm := ProxState.disconnected }, []) := by
      simp [step, hc]
    simp only [run, soundCount_append, hstep]
    rw [run_no_connect_sound es _ (by simp) hes]
    rfl
  · intro hl
    have hstep : step s (Event.disconnect DiscReason.linkLoss) =
        ({ s with db := resetCccds s.db, fsm := alertStateFor s.link_loss_alert_level },
         [OutEvent.soundAlert s.link_loss_alert_level]) := by
      simp [step, hc, hl]
    have hfsm : alertStateFor s.link_loss_alert_level ≠ ProxState.connected := by
      cases hll : s.link_loss_alert_level <;> simp [alertStateFor]
    simp only [run, soundCount_append, hstep]
    rw [run_no_connect_sound es _ hfsm hes]
    rfl

/-- Witness for C1: connected with the default Mild link-loss level, followed
by a button acknowledgment. -/
theorem C1_witness :
    connState.fsm = ProxState.connected ∧
    connState.link_loss_alert_level ≠ AlertLevel.noAlert ∧
    soundCount (run connState
      [Event.disconnect DiscReason.graceful, Event.buttonAck]).2 = 0 ∧
    soundCount (run connState
      [Event.disconnect DiscReason.linkLoss, Event.buttonAck]).2 = 1 := by
  have hmain := C1_disconnect_alert connState [Event.buttonAck] (by decide)
    (by intro e he; simp at he; rw [he]; decide)
  exact ⟨by decide, by decide, hmain.1, hmain.2 (by decide)⟩

/-- Claim C2: while Connected, a write command to the Immediate Alert Level
characteristic with byte 0, 1 or 2 is accepted, stores the level, and emits
exactly one actuator signal — StopAlert for 0, SoundAlert Mild/High for 1/2;
any other byte is rejected with InvalidValue, emits no actuator signal and
leaves the state (including the stored value) unchanged. -/
theorem C2_immediate_alert_write (s : SysState) (b : Nat) (a : Attr)
    (hc : s.fsm = ProxState.connected)
    (ha : findAttr s.db HANDLE_IMMEDIATE_ALERT_LEVEL = some a)
    (hperm : writePermOk a.perms WriteType.withoutResponse = true)
    (hlen : 1 ≤ a.maxLen) :
    (b = 0 →
      step s (Event.writeReq HANDLE_IMMEDIATE_ALERT_LEVEL WriteType.withoutResponse [b]) =
        ({ s with db := setAttrValue s.db HANDLE_IMMEDIATE_ALERT_LEVEL [b],
                  immediate_alert_level := AlertLevel.noAlert },
         [OutEvent.writeResp (Except.ok ()), OutEvent.stopAlert])) ∧
    (b = 1 →
      step s (Event.writeReq HANDLE_IMMEDIATE_ALERT_LEVEL WriteType.withoutResponse [b]) =
        ({ s with db := setAttrValue s.db HANDLE_IMMEDIATE_ALERT_LEVEL [b],
                  immediate_alert_level := AlertLevel.mild },
         [OutEvent.writeResp (Except.ok ()), OutEvent.soundAlert AlertLevel.mild])) ∧
    (b = 2 →
      step s (Event.writeReq HANDLE_IMMEDIATE_ALERT_LEVEL WriteType.withoutResponse [b]) =
        ({ s with db := setAttrValue s.db HANDLE_IMMEDIATE_ALERT_LEVEL [b],
                  immediate_alert_level := AlertLevel.high },
         [OutEvent.writeResp (Except.ok ()), OutEvent.soundAlert AlertLevel.high])) ∧
    (b ≤ 2 →
      actuatorCount
        (step s (Event.writeReq HANDLE_IMMEDIATE_ALERT_LEVEL
          WriteType.withoutResponse [b])).2 = 1) ∧
    (2 < b →
      step s (Event.writeReq HANDLE_IMMEDIATE_ALERT_LEVEL WriteType.withoutResponse [b]) =
        (s, [OutEvent.writeResp (Except.error GattError.InvalidValue)]) ∧
      actuatorCount
        (step s (Event.writeReq HANDLE_IMMEDIATE_ALERT_LEVEL
          WriteType.withoutResponse [b])).2 = 0) := by
  have hw : writeAttr s.db HANDLE_IMMEDIATE_ALERT_LEVEL WriteType.withoutResponse [b] =
      (.ok (), setAttrValue s.db HANDLE_IMMEDIATE_ALERT_LEVEL [b]) := by
    unfold writeAttr
    rw [ha]
    simp [hperm, hlen]
  refine ⟨?_, ?_, ?_, ?_, ?_⟩
  · intro hb; subst hb; simp [step, hw, decodeAlert, hc, actuatorFor]
  · intro hb; subst hb; simp [step, hw, decodeAlert, hc, actuatorFor]
  · intro hb; subst hb; simp [step, hw, decodeAlert, hc, actuatorFor]
  · intro hb
    have : b = 0 ∨ b = 1 ∨ b = 2 := by omega
    rcases this with hb0 | hb1 | hb2
    · subst hb0; simp [step, hw, decodeAlert, hc, actuatorFor, actuatorCount]
    · subst hb1; simp [step, hw, decodeAlert, hc, actuatorFor, actuatorCount]
    · subst hb2; simp [step, hw, decodeAlert, hc, actuatorFor, actuatorCount]
  · intro hb
    have hd : decodeAlert [b] = none := by
      unfold decodeAlert
      have hb0 : b ≠ 0 := by omega
      have hb1 : b ≠ 1 := by omega
      have hb2 : b ≠ 2 := by omega
      simp [hb0, hb1, hb2]
    constructor
    · simp [step, hw, hd]
    · simp [step, hw, hd, actuatorCount]

/-- Witness for C2 in the connected state: writing 1 sounds the Mild alert. -/
theorem C2_witness :
    connState.fsm = ProxState.connected ∧
    step connState (Event.writeReq HANDLE_IMMEDIATE_ALERT_LEVEL
        WriteType.withoutResponse [1]) =
      ({ connState with
          db := setAttrValue connState.db HANDLE_IMMEDIATE_ALERT_LEVEL [1],
          immediate_alert_level := AlertLevel.mild },
       [OutEvent.writeResp (Except.ok ()), OutEvent.soundAlert AlertLevel.mild]) ∧
    actuatorCount (step connState (Event.writeReq HANDLE_IMMEDIATE_ALERT_LEVEL
        WriteType.withoutResponse [1])).2 = 1 ∧
    step connState (Event.writeReq HANDLE_IMMEDIATE_ALERT_LEVEL
        WriteType.withoutResponse [5]) =
      (connState, [OutEvent.writeResp (Except.error GattError.InvalidValue)]) := by
  have hmain := C2_immediate_alert_write connState 1 immediateAlertAttr
    (by decide) (by decide) (by decide) (by decide)
  have hmain5 := C2_immediate_alert_write connState 5 immediateAlertAttr
    (by decide) (by decide) (by decide) (by decide)
  exact ⟨by decide, hmain.2.1 rfl, hmain.2.2.2.1 (by decide),
    (hmain5.2.2.2.2 (by decide)).1⟩

end Prox
